import Mathlib

/-! Verification development for the supreme-hello-world credit/session core.

The TypeScript sources are shallowly embedded: React state and refs become
fields of an explicit state record, browser storage becomes an association
list from keys to strings, network calls and the JSON bodies of their
responses become explicit oracle parameters, and `postMessage` calls become
an emitted list of outbound messages.  JavaScript truthiness on the values
the code actually tests (strings, numbers-or-undefined) is modelled
explicitly by the `js...` helpers.  Timestamps (`created_at`) are modelled
by their epoch value, which is what `new Date(x).getTime()` extracts before
every comparison in the source.
-/

namespace CreditSystem

/-- Browser storage (sessionStorage or localStorage): an association list
from keys to string values, newest entry last.  `getItem` returns the first
binding, matching the unique-key discipline `setItem` maintains. -/
abbrev Store := List (String × String)

/-- Model of `storage.getItem k`: `none` models the `null` returned for an
absent key. -/
def getItem : Store → String → Option String
  | [], _ => none
  | kv :: rest, k => if kv.1 = k then some kv.2 else getItem rest k

/-- Model of `storage.removeItem k`. -/
def removeItem : Store → String → Store
  | [], _ => []
  | kv :: rest, k => if kv.1 = k then removeItem rest k else kv :: removeItem rest k

/-- Model of `storage.setItem k v` (replaces any previous binding). -/
def setItem (s : Store) (k v : String) : Store :=
  removeItem s k ++ [(k, v)]

/-- JavaScript string coercion applied by `setItem` to a possibly-undefined
value: `undefined` is stored as the literal string "undefined". -/
def jsString (x : Option String) : String :=
  match x with
  | some s => s
  | none => "undefined"

/-- JavaScript truthiness of a string-or-null value: `null` and the empty
string are falsy. -/
def jsTruthy (x : Option String) : Bool :=
  match x with
  | none => false
  | some s => s != ""

/-- JavaScript `x || y` for a number-or-undefined `x`: `undefined` and `0`
are falsy, so they yield `y`; any other number is returned. -/
def jsOrNum (x y : Option Int) : Option Int :=
  match x with
  | some v => if v = 0 then y else some v
  | none => y

/-- JavaScript `x || y` collapsing a number-or-undefined to a number
(used for `currentBalance || 0` and `balance || 0`). -/
def jsOrZero (x : Option Int) : Int :=
  match x with
  | some v => v
  | none => 0

/-- JavaScript `x ?? y` (nullish coalescing) on a number-or-undefined. -/
def jsNullish (x : Option Int) (y : Int) : Int :=
  match x with
  | some v => v
  | none => y

/-- JavaScript `x || y` on a string-or-undefined (used for
`data.message || "..."` fallbacks). -/
def jsOrStr (x : Option String) (y : String) : String :=
  match x with
  | some s => if s = "" then y else s
  | none => y

/-- Model of `String.prototype.trim`: strip leading and trailing
whitespace (computable by structural recursion, unlike the library trim). -/
def trimString (s : String) : String :=
  String.mk (((s.data.dropWhile Char.isWhitespace).reverse.dropWhile Char.isWhitespace).reverse)

/-- Truthiness of a number-or-undefined (used to describe the
`a || b || c` balance-field chain). -/
def jsTruthyNum (x : Option Int) : Bool :=
  match x with
  | some v => decide (v ≠ 0)
  | none => false

/-- The authenticated-user record `\x7bid, email, name?\x7d` of
useSimpleCreditSystem.ts lines 5-9. -/
structure User where
  id : String
  email : String
  name : Option String
deriving Repr, DecidableEq

/-- Abstract model of `JSON.stringify` on a user record: an injective
encoding into a string (the concrete JSON text is irrelevant to every
claim; only round-tripping and failure behaviour matter). -/
def jsonStringifyUser (u : User) : String :=
  "user:" ++ u.id ++ ":" ++ u.email ++ ":" ++
    (match u.name with
     | some n => n
     | none => "")

/-- Model of `JSON.stringify(event.data.user)` where the user may be
undefined: `JSON.stringify(undefined)` is `undefined`, which `setItem`
coerces to the string "undefined". -/
def jsonStringifyUserField (u : Option User) : String :=
  match u with
  | some x => jsonStringifyUser x
  | none => "undefined"

/-- Split a character list at every colon (structural recursion, so that
deserialization evaluates inside the kernel). -/
def splitOnColon : List Char → List (List Char)
  | [] => [[]]
  | c :: rest =>
    match splitOnColon rest, decide (c = ':') with
    | r, true => [] :: r
    | [], false => [[c]]
    | h :: t, false => (c :: h) :: t

/-- Abstract model of `JSON.parse` on the persisted user entry: strings in
the image of `jsonStringifyUser` deserialize to the corresponding user;
every other string makes `JSON.parse` throw, modelled as `none`. -/
def jsonParseUser (s : String) : Option User :=
  match splitOnColon s.data with
  | [tag, i, e, n] =>
    if tag = "user".data then
      some { id := String.mk i, email := String.mk e,
             name := if n = [] then none else some (String.mk n) }
    else none
  | _ => none

/-- The in-memory state of the useSimpleCreditSystem hook: the React state
variables (isAuthenticated, user, balance, error), the token refs, and the
two browser stores it touches.  `balance : Option Int` because
`setBalance` is invoked with a possibly-undefined value (lines 512-513). -/
structure HookState where
  isAuthenticated : Bool
  user : Option User
  balance : Option Int
  error : Option String
  accessTokenRef : Option String
  refreshTokenRef : Option String
  sessionStore : Store
  localStore : Store
deriving Repr, DecidableEq

/-- Messages the hook posts to the parent frame, plus the internal
checkBalance trigger fired by REFRESH_BALANCE. -/
inductive OutMsg where
  | requestJwtToken
  | creditSystemReady (user : Option User)
  | reloadIframeRequest
  | statusResponse (isAuthenticated : Bool) (user : Option User) (balance : Option Int)
  | creditsSpent (amount : Int) (newBalance : Option Int)
  | checkBalanceCall
deriving Repr, DecidableEq

/-- The dynamic payload of an inbound cross-frame message
(`event.data`): a type tag plus the optional fields the handler reads. -/
structure MsgData where
  type : String
  token : Option String
  refreshToken : Option String
  user : Option User
  error : Option String
deriving Repr, DecidableEq

/-- An inbound `MessageEvent`: its origin and its (possibly absent) data. -/
structure MessageEvent where
  origin : String
  data : Option MsgData
deriving Repr, DecidableEq

/-- Removal of the three persisted session keys, as done by lines 84-91,
175-177, 235-240 and 378-380 of useSimpleCreditSystem.ts. -/
def clearSupremeKeys (s : Store) : Store :=
  removeItem (removeItem (removeItem s "supreme_access_token") "supreme_refresh_token") "supreme_user"

/-- The `handleMessage` listener of useSimpleCreditSystem.ts (lines
164-263), active in embedded mode.  Block one handles JWT_TOKEN_RESPONSE;
block two is the switch over parent control messages; a single inbound
event flows through both, exactly as in the source.  Note that the source
reads `event.origin` nowhere: no allow-list is configured for this hook
and no origin validation happens.  The retry-interval clearing of lines
198-203 touches only the retry timer state, modelled separately by
`retryTick`. -/
def handleMessage (st : HookState) (event : MessageEvent) : HookState × List OutMsg :=
  let a : HookState × List OutMsg :=
    match event.data with
    | none => (st, [])
    | some d =>
      if d.type = "JWT_TOKEN_RESPONSE" then
        match d.token with
        | some tok =>
          let cleared : HookState :=
            { st with
              sessionStore := [],
              localStore := clearSupremeKeys st.localStore,
              isAuthenticated := false, user := none, balance := some 0, error := none }
          let updated : HookState :=
            { cleared with
              accessTokenRef := some tok,
              refreshTokenRef := d.refreshToken,
              sessionStore :=
                setItem
                  (setItem
                    (setItem cleared.sessionStore "supreme_access_token" tok)
                    "supreme_refresh_token" (jsString d.refreshToken))
                  "supreme_user" (jsonStringifyUserField d.user),
              user := d.user,
              isAuthenticated := true }
          (updated, [OutMsg.creditSystemReady d.user])
        | none =>
          match d.error with
          | some e => ({ st with error := some e }, [])
          | none => (st, [])
      else (st, [])
  match event.data with
  | none => a
  | some d =>
    if d.type = "REFRESH_BALANCE" then
      (a.1, a.2 ++ [OutMsg.checkBalanceCall])
    else if d.type = "CLEAR_STORAGE" ∨ d.type = "CLEAR_SESSION" then
      ({ a.1 with
          sessionStore := clearSupremeKeys a.1.sessionStore,
          localStore := clearSupremeKeys a.1.localStore,
          accessTokenRef := none, refreshTokenRef := none,
          isAuthenticated := false, user := none, balance := some 0, error := none },
       a.2)
    else if d.type = "GET_STATUS" then
      (a.1, a.2 ++ [OutMsg.statusResponse a.1.isAuthenticated a.1.user a.1.balance])
    else a

/-- The hook state at mount in embedded mode, after the clearing effect and
before any handshake response: unauthenticated, no tokens, empty stores. -/
def embeddedAwaitState : HookState :=
  { isAuthenticated := false, user := none, balance := some 0, error := none,
    accessTokenRef := none, refreshTokenRef := none,
    sessionStore := [], localStore := [] }

/-- A JWT_TOKEN_RESPONSE carrying a valid-looking token and user, arriving
from an origin that is in no allow-list. -/
def evilEvent : MessageEvent :=
  { origin := "https://evil.example",
    data := some
      { type := "JWT_TOKEN_RESPONSE",
        token := some "evil-token",
        refreshToken := some "evil-refresh",
        user := some { id := "666", email := "evil@evil.example", name := none },
        error := none } }

/-- The session-restoration effect of useSimpleCreditSystem.ts (lines
272-302): skipped entirely in embedded mode; otherwise the three persisted
entries are read, the combined truthiness-plus-placeholder guard of line
285 is evaluated, the token refs are populated, and the saved user is
deserialized, with a parse failure purging only the supreme_user entry.
The surrounding try/catch makes every branch a normal return, which the
totality of this function models. -/
def restoreSession (isEmbedded : Bool) (st : HookState) : HookState :=
  if isEmbedded then st
  else
    let savedAccessToken := getItem st.sessionStore "supreme_access_token"
    let savedRefreshToken := getItem st.sessionStore "supreme_refresh_token"
    let savedUser := getItem st.sessionStore "supreme_user"
    if jsTruthy savedAccessToken && jsTruthy savedRefreshToken && jsTruthy savedUser
        && (savedUser != some "undefined") then
      let st1 : HookState :=
        { st with accessTokenRef := savedAccessToken, refreshTokenRef := savedRefreshToken }
      match jsonParseUser (jsString savedUser) with
      | some parsedUser => { st1 with user := some parsedUser, isAuthenticated := true }
      | none => { st1 with sessionStore := removeItem st1.sessionStore "supreme_user" }
    else st

/-- The `logout` callback (lines 371-383): resets the in-memory state,
nulls both token refs and removes the three persisted session entries. -/
def logoutState (st : HookState) : HookState :=
  { st with
    isAuthenticated := false, user := none, balance := some 0,
    accessTokenRef := none, refreshTokenRef := none,
    sessionStore := clearSupremeKeys st.sessionStore }

/-- An HTTP response to the original (and retried) request: its status and
an abstract body identifier, enough to tell the first response from the
retried one. -/
structure FetchResponse where
  status : Nat
  body : Nat
deriving Repr, DecidableEq

/-- Outcome of the `POST authUrl/refresh` call: `ok` is `refreshResponse.ok`
and `payload = some t` exactly when `refreshData.success && refreshData.data`
holds with new access token `t`. -/
structure RefreshResult where
  ok : Bool
  payload : Option String
deriving Repr, DecidableEq

/-- Network oracle for one `makeAuthenticatedRequest` call: the response to
the first fetch, the outcome of the refresh POST should it be issued, and
the response to the retried fetch should it be issued. -/
structure AuthRequestEnv where
  firstResponse : FetchResponse
  refreshResult : RefreshResult
  retryResponse : FetchResponse
deriving Repr, DecidableEq

/-- Result of a `makeAuthenticatedRequest` call: the returned response or
the thrown error, the hook state afterwards, and instrumentation counting
how many refresh POSTs and how many fetches of the original URL happened. -/
structure AuthRequestOutcome where
  result : Except String FetchResponse
  state : HookState
  refreshCalls : Nat
  originalFetches : Nat
deriving Repr

/-- The `makeAuthenticatedRequest` primitive (lines 385-447).  A missing
access token throws "Not authenticated".  A 401 first response triggers, if
a refresh token is stored, exactly one refresh POST: an ok refresh installs
the new token when the body carries one (lines 423-426) and returns the
retried fetch directly (lines 429-437), so the retried response is never
inspected for 401 again; a non-ok refresh, or a missing refresh token,
runs `logout` and throws "Session expired".  Any non-401 first response is
returned as is. -/
def makeAuthenticatedRequest (st : HookState) (env : AuthRequestEnv) : AuthRequestOutcome :=
  match st.accessTokenRef with
  | none => { result := Except.error "Not authenticated", state := st, refreshCalls := 0, originalFetches := 0 }
  | some _ =>
    let response := env.firstResponse
    if response.status = 401 then
      match st.refreshTokenRef with
      | some _ =>
        if env.refreshResult.ok then
          let st1 : HookState :=
            match env.refreshResult.payload with
            | some t =>
              { st with
                accessTokenRef := some t,
                sessionStore := setItem st.sessionStore "supreme_access_token" t }
            | none => st
          { result := Except.ok env.retryResponse, state := st1, refreshCalls := 1, originalFetches := 2 }
        else
          { result := Except.error "Session expired", state := logoutState st, refreshCalls := 1, originalFetches := 1 }
      | none =>
        { result := Except.error "Session expired", state := logoutState st, refreshCalls := 0, originalFetches := 1 }
    else
      { result := Except.ok response, state := st, refreshCalls := 0, originalFetches := 1 }

/-- One step of the embedded-mode mount effect (lines 77-146), in the order
the source performs them. -/
inductive InitStep where
  | clearSessionKey (k : String)
  | clearLocalKey (k : String)
  | resetAuthState
  | postToParent (m : OutMsg)
deriving Repr, DecidableEq

/-- The embedded-mode mount effect as the ordered event sequence of lines
84-115: sessionStorage removals, localStorage removals, in-memory reset,
then, 500 ms later, the REQUEST_JWT_TOKEN post.  The cookie sweep of lines
94-98 touches only cookie state, which no other claim reads, and the
retry interval armed at line 118 is modelled by `retryTick`. -/
def embeddedInitSteps : List InitStep :=
  [ InitStep.clearSessionKey "supreme_access_token",
    InitStep.clearSessionKey "supreme_refresh_token",
    InitStep.clearSessionKey "supreme_user",
    InitStep.clearLocalKey "supreme_access_token",
    InitStep.clearLocalKey "supreme_refresh_token",
    InitStep.clearLocalKey "supreme_user",
    InitStep.resetAuthState,
    InitStep.postToParent OutMsg.requestJwtToken ]

/-- Effect of one mount step on the hook state (posting changes nothing). -/
def applyInitStep (st : HookState) : InitStep → HookState
  | InitStep.clearSessionKey k => { st with sessionStore := removeItem st.sessionStore k }
  | InitStep.clearLocalKey k => { st with localStore := removeItem st.localStore k }
  | InitStep.resetAuthState =>
      { st with
        accessTokenRef := none, refreshTokenRef := none,
        isAuthenticated := false, user := none, balance := some 0, error := none }
  | InitStep.postToParent _ => st

/-- Replay a sequence of mount steps from a given state. -/
def runInitSteps (st : HookState) (steps : List InitStep) : HookState :=
  steps.foldl applyInitStep st

/-- Recognizer for the REQUEST_JWT_TOKEN post among the mount steps. -/
def isJwtRequestPost : InitStep → Bool
  | InitStep.postToParent OutMsg.requestJwtToken => true
  | _ => false

/-- No residual session anywhere: the three keys are absent from both
stores and the in-memory authentication state is cleared. -/
def sessionCleared (st : HookState) : Prop :=
  getItem st.sessionStore "supreme_access_token" = none ∧
  getItem st.sessionStore "supreme_refresh_token" = none ∧
  getItem st.sessionStore "supreme_user" = none ∧
  getItem st.localStore "supreme_access_token" = none ∧
  getItem st.localStore "supreme_refresh_token" = none ∧
  getItem st.localStore "supreme_user" = none ∧
  st.accessTokenRef = none ∧ st.refreshTokenRef = none ∧
  st.isAuthenticated = false ∧ st.user = none

/-- The retry timer state of the embedded handshake: the access-token ref
the callback polls, the retryCountRef, and whether the interval is still
armed (clearInterval sets it to false). -/
structure RetryState where
  accessToken : Option String
  retryCount : Nat
  intervalActive : Bool
deriving Repr, DecidableEq

/-- The interval period passed to `setInterval` at line 146. -/
def retryIntervalMs : Nat := 15000

/-- One firing of the 15000 ms interval callback (lines 118-146): with no
token and fewer than 3 retries, increment the count and re-send
REQUEST_JWT_TOKEN, additionally sending RELOAD_IFRAME_REQUEST when the
count reaches 3; with a token present, clear the interval; otherwise do
nothing.  A cleared interval never fires again. -/
def retryTick (s : RetryState) : RetryState × List OutMsg :=
  if s.intervalActive = false then (s, [])
  else if s.accessToken = none ∧ s.retryCount < 3 then
    let s1 : RetryState := { s with retryCount := s.retryCount + 1 }
    (s1, OutMsg.requestJwtToken ::
      (if 3 ≤ s1.retryCount then [OutMsg.reloadIframeRequest] else []))
  else if s.accessToken ≠ none then
    ({ s with intervalActive := false }, [])
  else (s, [])

/-- Run `n` consecutive interval firings, collecting all emitted messages. -/
def runTicks : RetryState → Nat → RetryState × List OutMsg
  | s, 0 => (s, [])
  | s, n + 1 =>
    ((runTicks (retryTick s).1 n).1, (retryTick s).2 ++ (runTicks (retryTick s).1 n).2)

/-- The retry state right after the mount effect arms the interval: no
token yet, zero retries, interval active. -/
def retryStart : RetryState :=
  { accessToken := none, retryCount := 0, intervalActive := true }

/-- A ledger transaction as displayed by the demo.  `created_at` is the
epoch value `new Date(tx.created_at).getTime()` that every comparison in
the source extracts from the timestamp string. -/
structure Transaction where
  id : Nat
  type : String
  amount : Int
  created_at : Nat
  balance_after : Option Int
  description : String
deriving Repr, DecidableEq

/-- The client-side re-sort of `loadTransactionHistory`
(CreditSystemDemo.tsx lines 659-661 and 679-681):
`sort((a, b) => new Date(b.created_at).getTime() - new Date(a.created_at).getTime())`,
a comparison sort whose comparator orders by `created_at` descending;
`mergeSort` realizes the sorted-stable-permutation postcondition of
`Array.prototype.sort` with that comparator. -/
def sortTransactionsDesc (txs : List Transaction) : List Transaction :=
  txs.mergeSort (fun a b => b.created_at ≤ a.created_at)

/-- The query parameters built by the simple hook `getHistory` (lines
580-591): `page` and `limit` are appended only when truthy, and no offset
parameter exists. -/
def getHistoryParams (page limit : Option Int) : List (String × String) :=
  (match page with
   | some p => if p = 0 then [] else [("page", toString p)]
   | none => []) ++
  (match limit with
   | some l => if l = 0 then [] else [("limit", toString l)]
   | none => [])

/-- The query string of `standaloneGetHistory` (CreditSystemDemo.tsx lines
461-468), as its key-value pairs: `organization_id`, `limit`, and
`offset = (page - 1) * limit`. -/
def standaloneHistoryQuery (organizationId page limit : Int) : List (String × String) :=
  let offset := (page - 1) * limit
  [("organization_id", toString organizationId),
   ("limit", toString limit),
   ("offset", toString offset)]

/-- The `data` object of a credit API response body, restricted to the
balance fields the client reads. -/
structure ApiData where
  updated_balance : Option Int
  new_balance : Option Int
  balance : Option Int
deriving Repr, DecidableEq

/-- A credit API response as the client observes it: `response.ok`, the
body `success` flag, and the optional `data` object. -/
structure ApiResponse where
  ok : Bool
  success : Bool
  data : Option ApiData
deriving Repr, DecidableEq

/-- Optional-chained field reads `data.data?.updated_balance` and friends. -/
def updatedBalanceField (r : ApiResponse) : Option Int :=
  match r.data with
  | some d => d.updated_balance
  | none => none

def newBalanceField (r : ApiResponse) : Option Int :=
  match r.data with
  | some d => d.new_balance
  | none => none

def balanceField (r : ApiResponse) : Option Int :=
  match r.data with
  | some d => d.balance
  | none => none

/-- The balance-selection expression of `spendCredits` (line 512) and
`addCredits` (line 561):
`data.data?.updated_balance || data.data?.new_balance || data.data?.balance`. -/
def creditResponseNewBalance (r : ApiResponse) : Option Int :=
  jsOrNum (updatedBalanceField r) (jsOrNum (newBalanceField r) (balanceField r))

/-- Result record of the hook credit operations (success flag, error
message, returned balance). -/
structure OpResult where
  success : Bool
  error : Option String
  balance : Option Int
deriving Repr, DecidableEq

/-- The response-handling part of the hook `spendCredits` (lines 493-540).
The underlying `makeAuthenticatedRequest` is modelled separately; `net`
carries either the thrown error of that primitive (caught at line 534) or
the response with its optional body message. -/
def spendCredits (st : HookState) (isEmbedded : Bool) (amount : Int)
    (net : Except String (ApiResponse × Option String)) :
    HookState × OpResult × List OutMsg :=
  match net with
  | Except.error e =>
    ({ st with error := some e }, { success := false, error := some e, balance := none }, [])
  | Except.ok (resp, message) =>
    if resp.ok && resp.success then
      let newBalance := creditResponseNewBalance resp
      ({ st with balance := newBalance },
       { success := true, error := none, balance := newBalance },
       if isEmbedded then [OutMsg.creditsSpent amount newBalance] else [])
    else
      let errorMsg := jsOrStr message "Failed to spend credits"
      ({ st with error := some errorMsg },
       { success := false, error := some errorMsg, balance := none }, [])

/-- The response-handling part of the hook `addCredits` (lines 542-578);
identical balance selection, no parent notification. -/
def addCredits (st : HookState) (amount : Int)
    (net : Except String (ApiResponse × Option String)) :
    HookState × OpResult × List OutMsg :=
  match net with
  | Except.error e =>
    ({ st with error := some e }, { success := false, error := some e, balance := none }, [])
  | Except.ok (resp, message) =>
    if resp.ok && resp.success then
      let newBalance := creditResponseNewBalance resp
      ({ st with balance := newBalance },
       { success := true, error := none, balance := newBalance }, [])
    else
      let errorMsg := jsOrStr message "Failed to add credits"
      ({ st with error := some errorMsg },
       { success := false, error := some errorMsg, balance := none }, [])

/-- The `standaloneSpendCredits` operation (CreditSystemDemo.tsx lines
412-433) after the organization guard: on a successful API result the new
cached balance is `new_balance ?? balance ?? ((standaloneBalance ?? 0) - amount)`;
on failure the cached balance is untouched.  Returns the new cached
balance, the success flag, and the reported newBalance. -/
def standaloneSpendCredits (standaloneBalance : Option Int) (amount : Int)
    (api : ApiResponse) : Option Int × Bool × Option Int :=
  if api.ok && api.success then
    let newBalance :=
      jsNullish (newBalanceField api)
        (jsNullish (balanceField api) (jsNullish standaloneBalance 0 - amount))
    (some newBalance, true, some newBalance)
  else (standaloneBalance, false, none)

/-- Outcome of the spend form handler before or instead of the network
call. -/
inductive SpendOutcome where
  | invalidAmount
  | insufficientBalance (currentBalance : Int) (requested : Int)
  | missingDescription
  | noOrganization
  | completed (succeeded : Bool)
deriving Repr, DecidableEq

/-- Result of running the spend form handler: its outcome, whether any
network request was issued, and the two cached balances afterwards
(`standaloneBalance` and the SDK-owned `balance`). -/
structure SpendHandlerResult where
  outcome : SpendOutcome
  networkCalled : Bool
  standaloneBalance : Option Int
  balance : Option Int
deriving Repr, DecidableEq

/-- The `handleSpendCredits` form handler (CreditSystemDemo.tsx lines
967-1054), from the parsed amount on (`amount = none` models `NaN`; the
blank-input toast of lines 970-973 precedes parsing and issues no request
either).  Guard order as in the source: positivity (line 977), then the
balance precondition (lines 983-991) on
`standaloneMode ? standaloneBalance : balance`, then the description
requirement (lines 993-996); only then is a network request issued
(standalone API when `standaloneMode && standaloneAuthenticated`, else the
SDK call, whose internal cache update lives outside this repository and
leaves the `balance` field of this record unchanged). -/
def handleSpendCredits (amount : Option Int) (standaloneMode standaloneAuthenticated : Bool)
    (standaloneBalance balance : Option Int) (spendDescription : String)
    (hasSelectedOrg : Bool) (api : ApiResponse) : SpendHandlerResult :=
  match amount with
  | none =>
    { outcome := SpendOutcome.invalidAmount, networkCalled := false,
      standaloneBalance := standaloneBalance, balance := balance }
  | some a =>
    if a ≤ 0 then
      { outcome := SpendOutcome.invalidAmount, networkCalled := false,
        standaloneBalance := standaloneBalance, balance := balance }
    else
      match (if standaloneMode then standaloneBalance else balance) with
      | none =>
        { outcome := SpendOutcome.insufficientBalance 0 a, networkCalled := false,
          standaloneBalance := standaloneBalance, balance := balance }
      | some cb =>
        if cb < a then
          { outcome := SpendOutcome.insufficientBalance cb a, networkCalled := false,
            standaloneBalance := standaloneBalance, balance := balance }
        else if trimString spendDescription = "" then
          { outcome := SpendOutcome.missingDescription, networkCalled := false,
            standaloneBalance := standaloneBalance, balance := balance }
        else if standaloneMode && standaloneAuthenticated then
          if hasSelectedOrg = false then
            { outcome := SpendOutcome.noOrganization, networkCalled := false,
              standaloneBalance := standaloneBalance, balance := balance }
          else
            let r := standaloneSpendCredits standaloneBalance a api
            { outcome := SpendOutcome.completed r.2.1, networkCalled := true,
              standaloneBalance := r.1, balance := balance }
        else
          { outcome := SpendOutcome.completed (api.ok && api.success), networkCalled := true,
            standaloneBalance := standaloneBalance, balance := balance }

/-- The ceiling configured at CreditSystemDemo.tsx line 146. -/
def MAX_CREDIT_LIMIT : Int := 25000

/-- Outcome of the add form handler before or instead of the network call. -/
inductive AddOutcome where
  | invalidAmount
  | missingDescription
  | creditLimitExceeded (currentBalance : Int) (requested : Int)
  | noOrganization
  | completed (succeeded : Bool)
deriving Repr, DecidableEq

/-- Result of running the add form handler, mirroring
`SpendHandlerResult`. -/
structure AddHandlerResult where
  outcome : AddOutcome
  networkCalled : Bool
  standaloneBalance : Option Int
  balance : Option Int
deriving Repr, DecidableEq

/-- The `handleAddCredits` form handler (CreditSystemDemo.tsx lines
1057-1145), from the parsed amount on.  Guard order as in the source:
positivity (line 1067), then the description requirement (lines
1072-1075), and only then the credit-limit precondition (lines 1077-1086)
on `(standaloneMode ? (standaloneBalance || 0) : (balance || 0)) + amount
> MAX_CREDIT_LIMIT`; the network request follows the same mode split as
the spend handler.  The standalone add computes its new balance with the
`?? ... + amount` chain of line 453. -/
def handleAddCredits (amount : Option Int) (standaloneMode standaloneAuthenticated : Bool)
    (standaloneBalance balance : Option Int) (addDescription : String)
    (hasSelectedOrg : Bool) (api : ApiResponse) : AddHandlerResult :=
  match amount with
  | none =>
    { outcome := AddOutcome.invalidAmount, networkCalled := false,
      standaloneBalance := standaloneBalance, balance := balance }
  | some a =>
    if a ≤ 0 then
      { outcome := AddOutcome.invalidAmount, networkCalled := false,
        standaloneBalance := standaloneBalance, balance := balance }
    else if trimString addDescription = "" then
      { outcome := AddOutcome.missingDescription, networkCalled := false,
        standaloneBalance := standaloneBalance, balance := balance }
    else
      let currentBalance : Int :=
        if standaloneMode then jsOrZero standaloneBalance else jsOrZero balance
      if MAX_CREDIT_LIMIT < currentBalance + a then
        { outcome := AddOutcome.creditLimitExceeded currentBalance a, networkCalled := false,
          standaloneBalance := standaloneBalance, balance := balance }
      else if standaloneMode && standaloneAuthenticated then
        if hasSelectedOrg = false then
          { outcome := AddOutcome.noOrganization, networkCalled := false,
            standaloneBalance := standaloneBalance, balance := balance }
        else
          let succeeded := api.ok && api.success
          let newStandalone :=
            if succeeded then
              some (jsNullish (newBalanceField api)
                (jsNullish (balanceField api) (jsNullish standaloneBalance 0 + a)))
            else standaloneBalance
          { outcome := AddOutcome.completed succeeded, networkCalled := true,
            standaloneBalance := newStandalone, balance := balance }
      else
        { outcome := AddOutcome.completed (api.ok && api.success), networkCalled := true,
          standaloneBalance := standaloneBalance, balance := balance }

/-! Concrete fixtures used by witnesses and counterexamples. -/

/-- A bare successful API response with no data object. -/
def plainApiOk : ApiResponse := { ok := true, success := true, data := none }

/-- Hook state holding a stored session whose user entry is the literal
placeholder string "undefined". -/
def c7UndefState : HookState :=
  { embeddedAwaitState with
    sessionStore :=
      [("supreme_access_token", "tok-a"),
       ("supreme_refresh_token", "tok-r"),
       ("supreme_user", "undefined")] }

/-- Hook state holding a stored session whose user entry does not
deserialize. -/
def c7ParseFailState : HookState :=
  { embeddedAwaitState with
    sessionStore :=
      [("supreme_access_token", "tok-a"),
       ("supreme_refresh_token", "tok-r"),
       ("supreme_user", "not-json")] }

/-- An authenticated hook state for exercising the refresh path. -/
def c2State : HookState :=
  { embeddedAwaitState with
    accessTokenRef := some "t0", refreshTokenRef := some "r0",
    isAuthenticated := true,
    user := some { id := "1", email := "a@b.c", name := none } }

/-- Environment for one 401-then-successful-refresh round trip. -/
def c2Env : AuthRequestEnv :=
  { firstResponse := { status := 401, body := 0 },
    refreshResult := { ok := true, payload := some "t1" },
    retryResponse := { status := 200, body := 1 } }

/-- Environment for one 401-then-failed-refresh round trip. -/
def c2EnvFail : AuthRequestEnv :=
  { firstResponse := { status := 401, body := 0 },
    refreshResult := { ok := false, payload := none },
    retryResponse := { status := 200, body := 1 } }

/-- A successful response whose only balance field is an explicit zero
`updated_balance`. -/
def balanceZeroResp : ApiResponse :=
  { ok := true, success := true,
    data := some { updated_balance := some 0, new_balance := none, balance := none } }

/-! Store lemmas shared by several claims. -/

theorem getItem_removeItem_self (s : Store) (k : String) :
    getItem (removeItem s k) k = none := by
  induction s with
  | nil => rfl
  | cons hd tl ih =>
    by_cases hk : hd.1 = k
    · simpa [removeItem, hk] using ih
    · simpa [removeItem, getItem, hk] using ih

theorem getItem_removeItem_ne (s : Store) (k1 k2 : String) (h : k1 ≠ k2) :
    getItem (removeItem s k2) k1 = getItem s k1 := by
  induction s with
  | nil => rfl
  | cons hd tl ih =>
    by_cases h2 : hd.1 = k2
    · have hq : hd.1 ≠ k1 := by
        rw [h2]
        exact fun hh => h hh.symm
      rw [show removeItem (hd :: tl) k2 = removeItem tl k2 by simp [removeItem, h2]]
      rw [show getItem (hd :: tl) k1 = getItem tl k1 by simp [getItem, hq]]
      exact ih
    · simp only [removeItem, getItem, if_neg h2]
      by_cases hq : hd.1 = k1
      · simp [getItem, hq]
      · simpa [getItem, hq] using ih

theorem getItem_clearSupremeKeys (s : Store) :
    getItem (clearSupremeKeys s) "supreme_access_token" = none
  ∧ getItem (clearSupremeKeys s) "supreme_refresh_token" = none
  ∧ getItem (clearSupremeKeys s) "supreme_user" = none := by
  unfold clearSupremeKeys
  refine ⟨?_, ?_, ?_⟩
  · rw [getItem_removeItem_ne _ _ _ (by decide), getItem_removeItem_ne _ _ _ (by decide)]
    exact getItem_removeItem_self s _
  · rw [getItem_removeItem_ne _ _ _ (by decide)]
    exact getItem_removeItem_self _ _
  · exact getItem_removeItem_self _ _

/-! Claim theorems. -/

/-- C1: the claim demands that a JWT_TOKEN_RESPONSE from an origin outside
the configured allow-list leave session state untouched.  The embedded
message handler of useSimpleCreditSystem.ts never reads `event.origin`
(first conjunct: its output is entirely independent of the origin), so the
valid-looking token response `evilEvent` from the unlisted origin
"https://evil.example" is accepted: the handler authenticates the session
and stores the attacker-supplied token, although the state before was
fully unauthenticated. -/
theorem c1_token_response_accepted_without_origin_check :
    (∀ (st : HookState) (o1 o2 : String) (d : Option MsgData),
        handleMessage st { origin := o1, data := d } =
          handleMessage st { origin := o2, data := d })
  ∧ (handleMessage embeddedAwaitState evilEvent).1.isAuthenticated = true
  ∧ (handleMessage embeddedAwaitState evilEvent).1.accessTokenRef = some "evil-token"
  ∧ (handleMessage embeddedAwaitState evilEvent).1.user =
      some { id := "666", email := "evil@evil.example", name := none }
  ∧ getItem (handleMessage embeddedAwaitState evilEvent).1.sessionStore
      "supreme_access_token" = some "evil-token"
  ∧ embeddedAwaitState.isAuthenticated = false
  ∧ embeddedAwaitState.accessTokenRef = none := by
  exact ⟨fun st o1 o2 d => rfl, rfl, rfl, rfl, rfl, rfl, rfl⟩

/-- C2: on a 401 with a stored refresh token, exactly one refresh POST is
issued; a successful refresh carrying a new access token installs it,
retries the original request exactly once and hands that second response
back with authentication intact; a failed refresh clears every persisted
credential and all in-memory state and throws "Session expired"; over all
states and environments, never more than one refresh and one retry per
call. -/
theorem c2_single_refresh_and_retry (st : HookState) (env : AuthRequestEnv)
    (tk rk : String) (hacc : st.accessTokenRef = some tk)
    (href : st.refreshTokenRef = some rk)
    (h401 : env.firstResponse.status = 401) :
    (makeAuthenticatedRequest st env).refreshCalls = 1
  ∧ (∀ nt, env.refreshResult.ok = true → env.refreshResult.payload = some nt →
      (makeAuthenticatedRequest st env).result = Except.ok env.retryResponse
    ∧ (makeAuthenticatedRequest st env).state.accessTokenRef = some nt
    ∧ (makeAuthenticatedRequest st env).state.refreshTokenRef = some rk
    ∧ (makeAuthenticatedRequest st env).state.isAuthenticated = st.isAuthenticated
    ∧ (makeAuthenticatedRequest st env).originalFetches = 2)
  ∧ (env.refreshResult.ok = false →
      (makeAuthenticatedRequest st env).result = Except.error "Session expired"
    ∧ (makeAuthenticatedRequest st env).state = logoutState st
    ∧ (makeAuthenticatedRequest st env).state.accessTokenRef = none
    ∧ (makeAuthenticatedRequest st env).state.refreshTokenRef = none
    ∧ getItem (makeAuthenticatedRequest st env).state.sessionStore "supreme_access_token" = none
    ∧ getItem (makeAuthenticatedRequest st env).state.sessionStore "supreme_refresh_token" = none
    ∧ getItem (makeAuthenticatedRequest st env).state.sessionStore "supreme_user" = none
    ∧ (makeAuthenticatedRequest st env).state.isAuthenticated = false
    ∧ (makeAuthenticatedRequest st env).originalFetches = 1)
  ∧ (∀ (st2 : HookState) (env2 : AuthRequestEnv),
      (makeAuthenticatedRequest st2 env2).refreshCalls ≤ 1
    ∧ (makeAuthenticatedRequest st2 env2).originalFetches ≤ 2) := by
  refine ⟨?_, ?_, ?_, ?_⟩
  · by_cases hok : env.refreshResult.ok
    · cases hpay : env.refreshResult.payload <;>
        simp [makeAuthenticatedRequest, hacc, href, h401, hok, hpay]
    · simp [makeAuthenticatedRequest, hacc, href, h401, hok]
  · intro nt hok hpay
    simp [makeAuthenticatedRequest, hacc, href, h401, hok, hpay]
  · intro hok
    have hclear := getItem_clearSupremeKeys st.sessionStore
    simp [makeAuthenticatedRequest, hacc, href, h401, hok, logoutState,
      clearSupremeKeys] at *
    exact ⟨hclear.1, hclear.2.1, hclear.2.2⟩
  · intro st2 env2
    cases hacc2 : st2.accessTokenRef with
    | none => simp [makeAuthenticatedRequest, hacc2]
    | some t2 =>
      by_cases h4012 : env2.firstResponse.status = 401
      · cases href2 : st2.refreshTokenRef with
        | none => simp [makeAuthenticatedRequest, hacc2, h4012, href2]
        | some r2 =>
          by_cases hok2 : env2.refreshResult.ok
          · cases hpay2 : env2.refreshResult.payload <;>
              simp [makeAuthenticatedRequest, hacc2, h4012, href2, hok2, hpay2]
          · simp [makeAuthenticatedRequest, hacc2, h4012, href2, hok2]
      · simp [makeAuthenticatedRequest, hacc2, h4012]

/-- C2 witness: a concrete 401 round trip with a successful refresh, and a
concrete one with a failed refresh. -/
theorem c2_single_refresh_and_retry_witness :
    (makeAuthenticatedRequest c2State c2Env).refreshCalls = 1
  ∧ (makeAuthenticatedRequest c2State c2Env).result = Except.ok c2Env.retryResponse
  ∧ (makeAuthenticatedRequest c2State c2Env).state.accessTokenRef = some "t1"
  ∧ (makeAuthenticatedRequest c2State c2EnvFail).result = Except.error "Session expired"
  ∧ (makeAuthenticatedRequest c2State c2EnvFail).state.accessTokenRef = none := by
  have h := c2_single_refresh_and_retry c2State c2Env "t0" "r0" rfl rfl rfl
  have h2 := h.2.1 "t1" rfl rfl
  have hf := c2_single_refresh_and_retry c2State c2EnvFail "t0" "r0" rfl rfl rfl
  have hf2 := hf.2.2.1 rfl
  exact ⟨h.1, h2.1, h2.2.1, hf2.1, hf2.2.2.1⟩

/-- C3: for every positive amount and every known cached balance, an amount
exceeding the balance makes the spend form handler fail with
InsufficientBalance carrying the current balance and the requested amount,
with no network request issued and both cached balances unchanged. -/
theorem c3_spend_insufficient_balance_guard
    (a b : Int) (standaloneMode standaloneAuthenticated : Bool)
    (standaloneBalance balance : Option Int) (spendDescription : String)
    (hasSelectedOrg : Bool) (api : ApiResponse)
    (hbal : (if standaloneMode then standaloneBalance else balance) = some b)
    (hpos : 0 < a) (hgt : b < a) :
    handleSpendCredits (some a) standaloneMode standaloneAuthenticated
      standaloneBalance balance spendDescription hasSelectedOrg api =
      { outcome := SpendOutcome.insufficientBalance b a, networkCalled := false,
        standaloneBalance := standaloneBalance, balance := balance } := by
  simp only [handleSpendCredits, hbal]
  rw [if_neg (by omega), if_pos hgt]

/-- C3 witness: the specification scenario, balance 100 and spend 150. -/
theorem c3_spend_insufficient_balance_guard_witness :
    handleSpendCredits (some 150) false false none (some 100) "test" false plainApiOk =
      { outcome := SpendOutcome.insufficientBalance 100 150, networkCalled := false,
        standaloneBalance := none, balance := some 100 } :=
  c3_spend_insufficient_balance_guard 150 100 false false none (some 100) "test" false
    plainApiOk rfl (by decide) (by decide)

/-- C4 counterexample: amount 26000 against cached balance 0 with a blank
description.  The amount is positive and exceeds the limit headroom, yet
the add form handler fails with the missing-description error, not with
the CreditLimitExceeded result the claim requires, because the description
guard of lines 1072-1075 runs before the limit guard of lines 1077-1086. -/
theorem c4_blank_description_preempts_limit :
    (0 : Int) < 26000
  ∧ MAX_CREDIT_LIMIT < jsOrZero (some 0) + 26000
  ∧ (handleAddCredits (some 26000) false false none (some 0) "" false plainApiOk).outcome
      = AddOutcome.missingDescription
  ∧ (handleAddCredits (some 26000) false false none (some 0) "" false plainApiOk).outcome
      ≠ AddOutcome.creditLimitExceeded 0 26000 := by
  refine ⟨by decide, by decide, rfl, ?_⟩
  intro hcontra
  rw [show (handleAddCredits (some 26000) false false none (some 0) "" false
      plainApiOk).outcome = AddOutcome.missingDescription from rfl] at hcontra
  cases hcontra

/-- C4 as amended: for every positive amount accompanied by a non-blank
description, when the cached balance (collapsed by the `|| 0` of line
1078) plus the amount exceeds MAX_CREDIT_LIMIT, the add form handler
fails with CreditLimitExceeded carrying the current balance and the
requested amount, with no network request and both cached balances
unchanged. -/
theorem c4_add_credit_limit_guard
    (a : Int) (standaloneMode standaloneAuthenticated : Bool)
    (standaloneBalance balance : Option Int) (addDescription : String)
    (hasSelectedOrg : Bool) (api : ApiResponse)
    (hpos : 0 < a) (hdesc : trimString addDescription ≠ "")
    (hlim : MAX_CREDIT_LIMIT <
      (if standaloneMode then jsOrZero standaloneBalance else jsOrZero balance) + a) :
    handleAddCredits (some a) standaloneMode standaloneAuthenticated
      standaloneBalance balance addDescription hasSelectedOrg api =
      { outcome :=
          AddOutcome.creditLimitExceeded
            (if standaloneMode then jsOrZero standaloneBalance else jsOrZero balance) a,
        networkCalled := false,
        standaloneBalance := standaloneBalance, balance := balance } := by
  simp only [handleAddCredits]
  rw [if_neg (by omega), if_neg hdesc, if_pos hlim]

/-- C4 witness: the specification scenario, balance 24900 and add 200
with description "x". -/
theorem c4_add_credit_limit_guard_witness :
    handleAddCredits (some 200) false false none (some 24900) "x" false plainApiOk =
      { outcome := AddOutcome.creditLimitExceeded 24900 200, networkCalled := false,
        standaloneBalance := none, balance := some 24900 } :=
  c4_add_credit_limit_guard 200 false false none (some 24900) "x" false plainApiOk
    (by decide) (by decide) (by decide)

/-- Exact behaviour of `n` retry-interval firings started with no token,
retry count `c ≤ 3` and an armed interval: the count saturates at 3, each
firing below the bound re-sends REQUEST_JWT_TOKEN, and
RELOAD_IFRAME_REQUEST is sent exactly when the bound is crossed. -/
theorem runTicks_count (n : Nat) : ∀ (c : Nat), c ≤ 3 →
    (runTicks ⟨none, c, true⟩ n).1 = ⟨none, min (c + n) 3, true⟩
  ∧ (runTicks ⟨none, c, true⟩ n).2.count OutMsg.requestJwtToken = min (c + n) 3 - c
  ∧ (runTicks ⟨none, c, true⟩ n).2.count OutMsg.reloadIframeRequest =
      (if c < 3 ∧ 3 ≤ c + n then 1 else 0) := by
  induction n with
  | zero =>
    intro c hc
    have hmin : min (c + 0) 3 = c := by omega
    refine ⟨?_, ?_, ?_⟩
    · simp only [runTicks]
      rw [hmin]
    · simp only [runTicks, List.count_nil]
      rw [hmin]
      omega
    · simp only [runTicks, List.count_nil]
      rw [if_neg (by omega)]
  | succ n ih =>
    intro c hc
    by_cases hlt : c < 3
    · have ihc := ih (c + 1) (by omega)
      by_cases h3 : 3 ≤ c + 1
      · have hstep : retryTick ⟨none, c, true⟩ =
            (⟨none, c + 1, true⟩,
              [OutMsg.requestJwtToken, OutMsg.reloadIframeRequest]) := by
          simp [retryTick, hlt, h3]
        refine ⟨?_, ?_, ?_⟩
        · simp only [runTicks, hstep]
          rw [ihc.1, show c + 1 + n = c + (n + 1) from by omega]
        · simp only [runTicks, hstep, List.count_append]
          rw [ihc.2.1,
            show List.count OutMsg.requestJwtToken
              [OutMsg.requestJwtToken, OutMsg.reloadIframeRequest] = 1 from rfl]
          omega
        · simp only [runTicks, hstep, List.count_append]
          rw [ihc.2.2,
            show List.count OutMsg.reloadIframeRequest
              [OutMsg.requestJwtToken, OutMsg.reloadIframeRequest] = 1 from rfl]
          rw [if_neg (by omega), if_pos (by omega)]
      · have hstep : retryTick ⟨none, c, true⟩ =
            (⟨none, c + 1, true⟩, [OutMsg.requestJwtToken]) := by
          simp [retryTick, hlt, h3]
        refine ⟨?_, ?_, ?_⟩
        · simp only [runTicks, hstep]
          rw [ihc.1, show c + 1 + n = c + (n + 1) from by omega]
        · simp only [runTicks, hstep, List.count_append]
          rw [ihc.2.1,
            show List.count OutMsg.requestJwtToken [OutMsg.requestJwtToken] = 1 from rfl]
          omega
        · simp only [runTicks, hstep, List.count_append]
          rw [ihc.2.2,
            show List.count OutMsg.reloadIframeRequest [OutMsg.requestJwtToken] = 0 from rfl]
          by_cases hn : 3 ≤ c + 1 + n
          · rw [if_pos (by omega), if_pos (by omega)]
          · rw [if_neg (by omega), if_neg (by omega)]
    · have hc3 : c = 3 := by omega
      subst hc3
      have hstep : retryTick ⟨none, 3, true⟩ = (⟨none, 3, true⟩, []) := by
        simp [retryTick]
      have ihc := ih 3 (by omega)
      refine ⟨?_, ?_, ?_⟩
      · simp only [runTicks, hstep]
        rw [ihc.1, show (3 + n : Nat) = 3 + (n + 1) - 1 from by omega,
          show min (3 + (n + 1) - 1) 3 = min (3 + (n + 1)) 3 from by omega]
      · simp only [runTicks, hstep, List.nil_append]
        rw [ihc.2.1]
        omega
      · simp only [runTicks, hstep, List.nil_append]
        rw [ihc.2.2]
        rw [if_neg (by omega), if_neg (by omega)]

/-- C5: starting from the armed retry interval with no token received and
the token never arriving, after any number `n` of 15000 ms firings the
retry count is `min n 3` and so never exceeds 3, REQUEST_JWT_TOKEN has
been re-sent `min n 3` times (at most 3), and RELOAD_IFRAME_REQUEST has
been sent exactly once as soon as the third attempt has fired and never
again. -/
theorem c5_retry_bounded_with_single_reload (n : Nat) :
    (runTicks retryStart n).1.retryCount = min n 3
  ∧ (runTicks retryStart n).1.retryCount ≤ 3
  ∧ (runTicks retryStart n).2.count OutMsg.requestJwtToken = min n 3
  ∧ (runTicks retryStart n).2.count OutMsg.reloadIframeRequest = (if 3 ≤ n then 1 else 0)
  ∧ retryIntervalMs = 15000 := by
  have h := runTicks_count n 0 (by omega)
  simp only [retryStart]
  refine ⟨?_, ?_, ?_, ?_, rfl⟩
  · rw [h.1]
    show min (0 + n) 3 = min n 3
    omega
  · rw [h.1]
    show min (0 + n) 3 ≤ 3
    omega
  · rw [h.2.1]
    omega
  · rw [h.2.2]
    by_cases h3 : 3 ≤ n
    · rw [if_pos (by omega), if_pos h3]
    · rw [if_neg (by omega), if_neg h3]

/-- C6: whatever order the server returned a page of transactions in, the
client-side re-sort produces a list that is pairwise non-increasing in
`created_at` and is a permutation of the server list. -/
theorem c6_history_sorted_nonincreasing (txs : List Transaction) :
    List.Pairwise (fun a b => b.created_at ≤ a.created_at) (sortTransactionsDesc txs)
  ∧ (sortTransactionsDesc txs).Perm txs := by
  constructor
  · have h := @List.sorted_mergeSort Transaction
      (fun a b : Transaction => decide (b.created_at ≤ a.created_at))
      (fun a b c hab hbc => by
        simp only [decide_eq_true_eq] at *
        omega)
      (fun a b => by
        simp only [Bool.or_eq_true, decide_eq_true_eq]
        omega)
      txs
    have hconv : ∀ (l : List Transaction),
        List.Pairwise (fun a b : Transaction =>
          (fun a b : Transaction => decide (b.created_at ≤ a.created_at)) a b = true) l →
        List.Pairwise (fun a b : Transaction => b.created_at ≤ a.created_at) l := by
      intro l hl
      exact hl.imp (fun hab => by simpa using hab)
    exact hconv _ h
  · exact List.mergeSort_perm txs _

/-- C7 counterexample: a stored session whose user entry is the literal
string "undefined".  Restoration treats it as absent (the session stays
unauthenticated) but, contrarily to the claim, does not purge it: the
store is completely unchanged and still holds the placeholder entry,
because the guard of line 285 short-circuits before any removal. -/
theorem c7_undefined_placeholder_not_purged :
    (restoreSession false c7UndefState).sessionStore = c7UndefState.sessionStore
  ∧ getItem (restoreSession false c7UndefState).sessionStore "supreme_user" = some "undefined"
  ∧ (restoreSession false c7UndefState).isAuthenticated = false
  ∧ (restoreSession false c7UndefState).user = none := by
  exact ⟨rfl, rfl, rfl, rfl⟩

/-- C7 as amended: restoration runs only in standalone mode (embedded mode
is untouched); a missing, empty or placeholder-"undefined" persisted value
leaves the state completely unchanged, in particular unauthenticated and
with the placeholder entry left in place rather than purged; a user
payload that fails to deserialize populates only the token refs, purges
exactly the supreme_user entry and leaves the session unauthenticated;
and a well-formed payload restores the session.  No branch can crash:
the function is total and every malformed shape lands in one of these
cases. -/
theorem c7_restore_validation (st : HookState) (a r u : String) :
    (restoreSession true st = st)
  ∧ (jsTruthy (getItem st.sessionStore "supreme_user") = false →
      restoreSession false st = st)
  ∧ (getItem st.sessionStore "supreme_user" = some "undefined" →
      restoreSession false st = st)
  ∧ (getItem st.sessionStore "supreme_access_token" = some a → a ≠ "" →
     getItem st.sessionStore "supreme_refresh_token" = some r → r ≠ "" →
     getItem st.sessionStore "supreme_user" = some u → u ≠ "" → u ≠ "undefined" →
     jsonParseUser u = none →
      restoreSession false st =
        { st with
            accessTokenRef := some a, refreshTokenRef := some r,
            sessionStore := removeItem st.sessionStore "supreme_user" })
  ∧ (getItem st.sessionStore "supreme_access_token" = some a → a ≠ "" →
     getItem st.sessionStore "supreme_refresh_token" = some r → r ≠ "" →
     getItem st.sessionStore "supreme_user" = some u → u ≠ "" → u ≠ "undefined" →
     ∀ pu, jsonParseUser u = some pu →
      restoreSession false st =
        { st with
            accessTokenRef := some a, refreshTokenRef := some r,
            user := some pu, isAuthenticated := true }) := by
  refine ⟨?_, ?_, ?_, ?_, ?_⟩
  · simp [restoreSession]
  · intro h
    simp [restoreSession, h]
  · intro h
    simp [restoreSession, h, jsTruthy]
  · intro hA ha hR hr hU hu hund hparse
    simp [restoreSession, hA, hR, hU, jsTruthy, jsString, ha, hr, hu, hund, hparse]
  · intro hA ha hR hr hU hu hund pu hparse
    simp [restoreSession, hA, hR, hU, jsTruthy, jsString, ha, hr, hu, hund, hparse]

/-- C7 witness: the parse-failure path on a concrete store, exercising the
amended theorem. -/
theorem c7_restore_validation_witness :
    restoreSession false c7ParseFailState =
      { c7ParseFailState with
          accessTokenRef := some "tok-a", refreshTokenRef := some "tok-r",
          sessionStore := removeItem c7ParseFailState.sessionStore "supreme_user" } := by
  have h := (c7_restore_validation c7ParseFailState "tok-a" "tok-r" "not-json").2.2.2.1
  exact h rfl (by decide) rfl (by decide) rfl (by decide) (by decide) rfl

/-- C8: in the embedded-mode mount effect, exactly one REQUEST_JWT_TOKEN
post occurs, it is the last event of the sequence, and at the moment it is
posted every residual persisted session value (the three keys in both
stores) and all in-memory authentication state have already been cleared,
whatever the prior state contained. -/
theorem c8_embedded_clears_before_jwt_request (st : HookState) :
    embeddedInitSteps.filter isJwtRequestPost =
      [InitStep.postToParent OutMsg.requestJwtToken]
  ∧ embeddedInitSteps.getLast? = some (InitStep.postToParent OutMsg.requestJwtToken)
  ∧ sessionCleared
      (runInitSteps st (embeddedInitSteps.takeWhile (fun s => !(isJwtRequestPost s)))) := by
  refine ⟨rfl, rfl, ?_⟩
  have hrun : runInitSteps st (embeddedInitSteps.takeWhile (fun s => !(isJwtRequestPost s))) =
      { st with
        sessionStore := clearSupremeKeys st.sessionStore,
        localStore := clearSupremeKeys st.localStore,
        accessTokenRef := none, refreshTokenRef := none,
        isAuthenticated := false, user := none, balance := some 0, error := none } := rfl
  rw [hrun]
  have hs := getItem_clearSupremeKeys st.sessionStore
  have hl := getItem_clearSupremeKeys st.localStore
  exact ⟨hs.1, hs.2.1, hs.2.2, hl.1, hl.2.1, hl.2.2, rfl, rfl, rfl, rfl⟩

/-- C9 counterexample: the simple hook getHistory called with page 2 and
page size 10 sends exactly the parameters page=2 and limit=10; its query
carries no offset parameter at all, although the claim requires an offset
of (2-1)*10 = 10. -/
theorem c9_hook_history_has_no_offset_param :
    getHistoryParams (some 2) (some 10) = [("page", "2"), ("limit", "10")]
  ∧ (getHistoryParams (some 2) (some 10)).lookup "offset" = none := by
  exact ⟨rfl, rfl⟩

/-- C9 as amended: the standalone history operation queries the server
with offset = (page - 1) * pageSize and limit = pageSize for every
page ≥ 1, while the simple hook getHistory sends page and limit directly
and never an offset parameter. -/
theorem c9_standalone_history_uses_offset (org page limit : Int) (hpage : 1 ≤ page) :
    (standaloneHistoryQuery org page limit).lookup "offset" =
      some (toString ((page - 1) * limit))
  ∧ (standaloneHistoryQuery org page limit).lookup "limit" = some (toString limit)
  ∧ (∀ p l : Int, (getHistoryParams (some p) (some l)).lookup "offset" = none) := by
  refine ⟨rfl, rfl, ?_⟩
  intro p l
  unfold getHistoryParams
  by_cases hp : p = 0 <;> by_cases hl : l = 0 <;> simp [hp, hl, List.lookup]

/-- C9 witness: page 3, page size 10, organization 7 queries offset 20 and
limit 10. -/
theorem c9_standalone_history_uses_offset_witness :
    (standaloneHistoryQuery 7 3 10).lookup "offset" = some "20"
  ∧ (standaloneHistoryQuery 7 3 10).lookup "limit" = some "10" := by
  have h := c9_standalone_history_uses_offset 7 3 10 (by decide)
  exact ⟨h.1, h.2.1⟩

/-- C10: after a successful spend or add response the cached balance is set
to the `updated_balance || new_balance || balance` chain, which selects
the first truthy (present and nonzero) field, falling through to the raw
final field otherwise; consequently a response reporting the true new
balance as a zero `updated_balance` alone, or a response with no balance
field at all, stores undefined rather than 0. -/
theorem c10_balance_set_to_first_truthy_field
    (st : HookState) (emb : Bool) (amt : Int) (resp : ApiResponse) (msg : Option String)
    (hok : resp.ok = true) (hs : resp.success = true) :
    (spendCredits st emb amt (Except.ok (resp, msg))).1.balance = creditResponseNewBalance resp
  ∧ (addCredits st amt (Except.ok (resp, msg))).1.balance = creditResponseNewBalance resp
  ∧ (∀ u n b : Option Int,
      creditResponseNewBalance
        { ok := true, success := true,
          data := some { updated_balance := u, new_balance := n, balance := b } } =
        (if jsTruthyNum u = true then u else if jsTruthyNum n = true then n else b))
  ∧ creditResponseNewBalance balanceZeroResp = none
  ∧ creditResponseNewBalance { ok := true, success := true, data := none } = none := by
  refine ⟨?_, ?_, ?_, rfl, rfl⟩
  · simp [spendCredits, hok, hs]
  · simp [addCredits, hok, hs]
  · intro u n b
    rcases u with _ | vu
    · rcases n with _ | vn
      · simp [creditResponseNewBalance, jsOrNum, jsTruthyNum,
          updatedBalanceField, newBalanceField, balanceField]
      · by_cases hn : vn = 0 <;>
          simp [creditResponseNewBalance, jsOrNum, jsTruthyNum,
            updatedBalanceField, newBalanceField, balanceField, hn]
    · by_cases hu : vu = 0
      · subst hu
        rcases n with _ | vn
        · simp [creditResponseNewBalance, jsOrNum, jsTruthyNum,
            updatedBalanceField, newBalanceField, balanceField]
        · by_cases hn : vn = 0 <;>
            simp [creditResponseNewBalance, jsOrNum, jsTruthyNum,
              updatedBalanceField, newBalanceField, balanceField, hn]
      · simp [creditResponseNewBalance, jsOrNum, jsTruthyNum,
          updatedBalanceField, newBalanceField, balanceField, hu]

/-- C10 witness: a successful response whose only balance field is the
explicit zero updated_balance makes both operations cache undefined. -/
theorem c10_balance_set_to_first_truthy_field_witness :
    (spendCredits embeddedAwaitState false 5 (Except.ok (balanceZeroResp, none))).1.balance = none
  ∧ (addCredits embeddedAwaitState 5 (Except.ok (balanceZeroResp, none))).1.balance = none := by
  have h := c10_balance_set_to_first_truthy_field embeddedAwaitState false 5
    balanceZeroResp none rfl rfl
  refine ⟨?_, ?_⟩
  · rw [h.1]
    exact h.2.2.2.1
  · rw [h.2.1]
    exact h.2.2.2.1

end CreditSystem
